import Mathlib

/-!
Verification development for the duckdb-web-search extension.

The definitions below are a shallow embedding of the C++ sources:
  * `src/src/http_client.cpp`  — transport: retry/backoff policy (`HttpClient`)
  * `src/src/google_search_function.cpp` — query compiler (`BuildGoogleSearchUrl`,
    `TimestampToDateRestrict`, `UrlEncode`), predicate absorber
    (`GoogleSearchPushdownComplexFilter`, `ExtractLikePattern`), limit pushdown
    (`OptimizeGoogleSearchLimitPushdown`), pagination engine
    (`FetchGoogleSearchResults`, `ParseGoogleSearchResponse`, `ExtractDomain`).

Machine integers of the C++ code are modelled as `Int`/`Nat`; `std::string`
as `String`; the network and the JSON parser are modelled as oracle
parameters supplying, for each request URL, the already-parsed page
(items plus the optional `queries.nextPage[0].startIndex` continuation
token); the system clock read by `TimestampToDateRestrict` is an explicit
`now_time_t : Int` parameter.
-/

namespace WebSearch

/-! ### Transport — src/src/http_client.cpp -/

/-- `RetryConfig` from `include/http_client.hpp` with its member defaults.
`backoff_multiplier` is a C++ `double`; it is modelled at integer values. -/
structure RetryConfig where
  max_retries : Nat := 3
  initial_backoff_ms : Int := 100
  backoff_multiplier : Int := 2
  max_backoff_ms : Int := 10000
deriving DecidableEq, Repr

/-- `HttpResponse` from `include/http_client.hpp` with its member defaults. -/
structure HttpResponse where
  status_code : Int := 0
  body : String := ""
  content_type : String := ""
  retry_after : String := ""
  error : String := ""
  success : Bool := false
deriving DecidableEq, Repr

/-- `HttpClient::IsRetryable` (http_client.cpp:32-46). -/
def isRetryable (status_code : Int) : Bool :=
  if status_code ≤ 0 then true
  else if status_code = 429 then true
  else if 500 ≤ status_code ∧ status_code ≤ 504 then true
  else false

/-- Value of a list of decimal digits, most significant first. -/
def digitsVal (ds : List Char) : Nat :=
  ds.foldl (fun acc c => acc * 10 + (c.toNat - Char.toNat '0')) 0

/-- `std::stoi`: skip leading whitespace, optional sign, then decimal digits;
`none` models the exception thrown when no digits are found or the value is
outside the `int` range. -/
def stoi (s : String) : Option Int :=
  let cs := s.toList.dropWhile (fun c => c = ' ' ∨ c = '\t' ∨ c = '\n' ∨ c = '\r')
  let signAndRest : Int × List Char :=
    match cs with
    | '-' :: t => (-1, t)
    | '+' :: t => (1, t)
    | t => (1, t)
  let ds := signAndRest.2.takeWhile (fun c => c.isDigit)
  if ds.isEmpty then none
  else
    let v : Int := signAndRest.1 * (digitsVal ds : Int)
    if v < -2147483648 ∨ 2147483647 < v then none else some v

/-- `HttpClient::ParseRetryAfter` (http_client.cpp:48-60): empty header or a
parse failure yields `0`; otherwise the parsed seconds are converted to
milliseconds. -/
def parseRetryAfter (retry_after : String) : Int :=
  if retry_after = "" then 0
  else
    match stoi retry_after with
    | some seconds => seconds * 1000
    | none => 0

/-- The wait computed before a retry (http_client.cpp:143-155): the
retry-after header is consulted only for status `429` with a non-empty
header, and only a positive parsed value is used; everything else falls back
to `initial_backoff_ms * multiplier^attempt`; the result is capped at
`max_backoff_ms`. -/
def backoffWait (config : RetryConfig) (status_code : Int) (retry_after : String)
    (attempt : Nat) : Int :=
  let expo : Int := config.initial_backoff_ms * config.backoff_multiplier ^ attempt
  let wait_ms : Int :=
    if status_code = 429 ∧ retry_after ≠ "" then
      let w := parseRetryAfter retry_after
      if w ≤ 0 then expo else w
    else expo
  min wait_ms config.max_backoff_ms

/-- The attempt loop of `HttpClient::Fetch` (http_client.cpp:125-159).
`responses` is the network oracle giving the outcome of each attempt;
the result carries the returned response together with the list of waits
performed between attempts.  The `fuel` argument counts the remaining loop
iterations (`Fetch` enters with `max_retries + 1`, matching
`for (attempt = 0; attempt <= max_retries; attempt++)`); the fuel-exhausted
base case is the unreachable fallthrough at http_client.cpp:162-164. -/
def fetchAux (config : RetryConfig) (responses : Nat → HttpResponse) (url : String) :
    Nat → Nat → HttpResponse × List Int
  | 0, _ => ({ error := "Unexpected error in HTTP fetch" }, [])
  | fuel + 1, attempt =>
    let response := responses attempt
    if response.success then (response, [])
    else if isRetryable response.status_code then
      if config.max_retries ≤ attempt then
        ({ response with error := "Max retries exceeded for URL: " ++ url }, [])
      else
        let w := backoffWait config response.status_code response.retry_after attempt
        let rest := fetchAux config responses url fuel (attempt + 1)
        (rest.1, w :: rest.2)
    else (response, [])

/-- `HttpClient::Fetch` (http_client.cpp:122-165). -/
def fetch (config : RetryConfig) (responses : Nat → HttpResponse) (url : String) :
    HttpResponse × List Int :=
  fetchAux config responses url (config.max_retries + 1) 0

/-! ### Query compiler — src/src/google_search_function.cpp and UrlEncode -/

/-- C-locale `isalnum` on ASCII. -/
def isalnumC (c : Char) : Bool :=
  (Char.toNat '0' ≤ c.toNat && c.toNat ≤ Char.toNat '9') ||
  (Char.toNat 'A' ≤ c.toNat && c.toNat ≤ Char.toNat 'Z') ||
  (Char.toNat 'a' ≤ c.toNat && c.toNat ≤ Char.toNat 'z')

/-- Upper-case hexadecimal digit. -/
def hexDigit (n : Nat) : Char :=
  if n < 10 then Char.ofNat (Char.toNat '0' + n)
  else Char.ofNat (Char.toNat 'A' + (n - 10))

/-- `UrlEncode` (http_client.cpp:12-30): alphanumerics and the characters
dash, underscore, dot and tilde pass through; every other character is
percent-encoded in upper-case hex. -/
def urlEncode (value : String) : String :=
  String.mk (value.toList.flatMap (fun c =>
    if isalnumC c || c == '-' || c == '_' || c == '.' || c == '~' then [c]
    else ['%', hexDigit (c.toNat / 16 % 16), hexDigit (c.toNat % 16)]))

/-- `TimestampToDateRestrict` (google_search_function.cpp:111-137).
`now_time_t` is the value `std::chrono::system_clock::to_time_t(now)` that
the C++ reads from the system clock; `from_ts`/`to_ts` are DuckDB
`timestamp_t` microseconds since the epoch.  Division casts in the C++
truncate toward zero, hence `Int.tdiv`. -/
def timestampToDateRestrict (now_time_t : Int) (from_ts : Int) (to_ts : Int) : String :=
  let from_time_t : Int := Int.tdiv from_ts 1000000
  let diff_seconds : Int := now_time_t - from_time_t
  let diff_days : Int := Int.tdiv diff_seconds 86400
  if diff_days ≤ 0 then ""
  else if diff_days ≤ 7 then "d" ++ toString diff_days
  else if diff_days ≤ 31 then "w" ++ toString (Int.tdiv (diff_days + 6) 7)
  else if diff_days ≤ 365 then "m" ++ toString (Int.tdiv (diff_days + 29) 30)
  else "y" ++ toString (Int.tdiv (diff_days + 364) 365)

/-- `GoogleSearchFilters` from `include/google_search_function.hpp`. -/
structure GoogleSearchFilters where
  exact_terms : String := ""
  exclude_terms : String := ""
  or_terms : String := ""
  date_restrict : String := ""
  file_type : String := ""
  site_search : String := ""
  site_search_filter : String := ""
  gl : String := ""
  hl : String := ""
  language : String := ""
  safe : String := ""
  rights : String := ""
  sort : String := ""
  structured_data : String := ""
deriving DecidableEq, Repr

/-- `GoogleSearchBindData` (google_search_function.cpp:47-66) with its member
defaults; in particular `max_results = 100`. -/
structure GoogleSearchBindData where
  query : String := ""
  api_key : String := ""
  cx : String := ""
  max_results : Nat := 100
  column_names : List String := []
  site_includes : List String := []
  site_excludes : List String := []
  date_from : Int := 0
  date_to : Int := 0
  has_date_filter : Bool := false
  filters : GoogleSearchFilters := {}
deriving DecidableEq, Repr

/-- The `(site:a OR site:b)` body built by the loop at
google_search_function.cpp:158-165. -/
def orSitesClause (sites : List String) : String :=
  String.intercalate " OR " (sites.map (fun s => "site:" ++ s))

/-- The part of `BuildGoogleSearchUrl` up to and including the `start`
parameter and the optional `siteSearch` parameter
(google_search_function.cpp:144-183). -/
def buildUrlHead (bind_data : GoogleSearchBindData) (start : Int)
    (site_filter : String) (use_or_sites : Bool) : String :=
  let url := "https://www.googleapis.com/customsearch/v1"
  let url := url ++ "?key=" ++ urlEncode bind_data.api_key
  let url := url ++ "&cx=" ++ urlEncode bind_data.cx
  let full_query := bind_data.query
  let full_query :=
    if bind_data.filters.structured_data ≠ "" then
      bind_data.filters.structured_data ++ " " ++ full_query
    else full_query
  let full_query :=
    if use_or_sites = true ∧ 1 < bind_data.site_includes.length then
      full_query ++ " (" ++ orSitesClause bind_data.site_includes ++ ")"
    else if use_or_sites = true ∧ bind_data.site_includes.length = 1 then
      full_query ++ " site:" ++ bind_data.site_includes.headD ""
    else full_query
  let full_query :=
    bind_data.site_excludes.foldl (fun q site => q ++ " -site:" ++ site) full_query
  let url := url ++ "&q=" ++ urlEncode full_query
  let url := url ++ "&num=10"
  let url := url ++ "&start=" ++ toString start
  if site_filter ≠ "" then
    url ++ "&siteSearch=" ++ urlEncode site_filter ++ "&siteSearchFilter=i"
  else url

/-- The optional `dateRestrict` parameter
(google_search_function.cpp:186-191); this is the only clock-dependent part
of the URL. -/
def dateRestrictParam (bind_data : GoogleSearchBindData) (now_time_t : Int) : String :=
  if bind_data.has_date_filter = true ∧ bind_data.date_from ≠ 0 then
    let date_restrict :=
      timestampToDateRestrict now_time_t bind_data.date_from bind_data.date_to
    if date_restrict ≠ "" then "&dateRestrict=" ++ urlEncode date_restrict else ""
  else ""

/-- The named-parameter filters and the `fields` parameter appended after the
date restriction (google_search_function.cpp:194-230). -/
def buildUrlTail (bind_data : GoogleSearchBindData) : String :=
  let f := bind_data.filters
  let url := ""
  let url := if f.exact_terms ≠ "" then url ++ "&exactTerms=" ++ urlEncode f.exact_terms else url
  let url := if f.exclude_terms ≠ "" then url ++ "&excludeTerms=" ++ urlEncode f.exclude_terms else url
  let url := if f.or_terms ≠ "" then url ++ "&orTerms=" ++ urlEncode f.or_terms else url
  let url := if f.file_type ≠ "" then url ++ "&fileType=" ++ urlEncode f.file_type else url
  let url := if f.gl ≠ "" then url ++ "&gl=" ++ urlEncode f.gl else url
  let url := if f.hl ≠ "" then url ++ "&hl=" ++ urlEncode f.hl else url
  let url := if f.language ≠ "" then url ++ "&lr=" ++ urlEncode f.language else url
  let url := if f.safe ≠ "" then url ++ "&safe=" ++ urlEncode f.safe else url
  let url := if f.rights ≠ "" then url ++ "&rights=" ++ urlEncode f.rights else url
  let url := if f.sort ≠ "" then url ++ "&sort=" ++ urlEncode f.sort else url
  url ++ "&fields=" ++ urlEncode
    ("items(title,link,snippet,displayLink,formattedUrl,htmlFormattedUrl,htmlTitle,htmlSnippet,mime,fileFormat,pagemap)," ++
     "queries(nextPage)")

/-- `BuildGoogleSearchUrl` (google_search_function.cpp:142-233), as the
concatenation of its clock-independent head, the clock-dependent
`dateRestrict` parameter, and the clock-independent tail. -/
def buildGoogleSearchUrl (bind_data : GoogleSearchBindData) (start : Int)
    (site_filter : String) (use_or_sites : Bool) (now_time_t : Int) : String :=
  buildUrlHead bind_data start site_filter use_or_sites ++
    dateRestrictParam bind_data now_time_t ++ buildUrlTail bind_data

/-! ### Predicate absorber — GoogleSearchPushdownComplexFilter and helpers -/

/-- Result of `ExtractLikePattern` (google_search_function.cpp:489-512): the
pattern with wildcard `%` characters stripped, plus the two flags set by the
function (`leadingWildcard` is its `is_suffix` out-parameter — the pattern
began with `%`; `trailingWildcard` is its `is_prefix` out-parameter — the
pattern ended with `%`). -/
structure LikePatternResult where
  value : String
  trailingWildcard : Bool
  leadingWildcard : Bool
deriving DecidableEq, Repr

/-- `ExtractLikePattern` (google_search_function.cpp:489-512).  Note: this
helper is defined in the source but never called. -/
def extractLikePattern (pattern : String) : LikePatternResult :=
  if pattern = "" then ⟨pattern, false, false⟩
  else
    let cs := pattern.toList
    let step1 : Bool × List Char :=
      match cs with
      | '%' :: t => (true, t)
      | l => (false, l)
    let step2 : Bool × List Char :=
      if step1.2 ≠ [] ∧ step1.2.getLast? = some '%' then (true, step1.2.dropLast)
      else (false, step1.2)
    ⟨String.mk step2.2, step2.1, step1.1⟩

/-- A bound constant as inspected by the pushdown code: the cases of
`constant.value.type().id()` that the absorber distinguishes. -/
inductive ConstVal where
  | varchar (s : String)
  | timestampV (micros : Int)
  | timestampTzV (micros : Int)
  | dateV (days : Int)
  | otherV
deriving DecidableEq, Repr

/-- A child of a bound `IN` operator: either a bound constant or some other
expression. -/
inductive ChildExpr where
  | constE (v : ConstVal)
  | nonConstE
deriving DecidableEq, Repr

/-- One caller-supplied predicate as classified by
`GoogleSearchPushdownComplexFilter` (google_search_function.cpp:515-709):
`suffixFn`/`prefixFn` are `BOUND_FUNCTION` filters named `suffix`/`prefix`
whose children are a column reference and a constant (the engine rewrites
`col LIKE '%text'` into `suffix(col, "text")` and `col LIKE 'text%'` into
`prefix(col, "text")`, so the constant carries no `%` wildcard); `inOp` is a
`BOUND_OPERATOR` whose first child is a column reference; the comparison
cases are `BOUND_COMPARISON` with a column reference on the left and a
constant on the right; filters of any other shape are `otherFilter`. -/
inductive PushFilter where
  | suffixFn (col : String) (v : ConstVal)
  | prefixFn (col : String) (v : ConstVal)
  | inOp (col : String) (children : List ChildExpr)
  | eqCmp (col : String) (v : ConstVal)
  | neqCmp (col : String) (v : ConstVal)
  | gtCmp (col : String) (v : ConstVal)
  | geCmp (col : String) (v : ConstVal)
  | ltCmp (col : String) (v : ConstVal)
  | leCmp (col : String) (v : ConstVal)
  | betweenCmp
  | otherFilter
deriving DecidableEq, Repr

/-- The constant-to-timestamp conversion in the date branches
(google_search_function.cpp:645-658 and 676-688): TIMESTAMP and
TIMESTAMP_TZ carry microseconds directly; a DATE value is converted by
`Timestamp::FromDatetime(date, 0)` (86400000000 microseconds per day); a
VARCHAR goes through `Timestamp::FromString`, modelled by the oracle
parameter `tsFromString` since that parser lives in DuckDB; any other type
hits the `continue`. -/
def convertToTimestamp (tsFromString : String → Int) : ConstVal → Option Int
  | ConstVal.varchar s => some (tsFromString s)
  | ConstVal.timestampV m => some m
  | ConstVal.timestampTzV m => some m
  | ConstVal.dateV d => some (86400000000 * d)
  | ConstVal.otherV => none

/-- The `site IN (...)` value collection (google_search_function.cpp:579-589):
walk the non-column children; a child that is not a VARCHAR constant stops the
walk and the predicate is not absorbed (`none`). -/
def collectVarchars : List ChildExpr → Option (List String)
  | [] => some []
  | ChildExpr.constE (ConstVal.varchar s) :: rest =>
      (collectVarchars rest).map (fun l => s :: l)
  | _ => none

/-- The body of the filter loop of `GoogleSearchPushdownComplexFilter` for a
single predicate (google_search_function.cpp:527-703): returns the updated
bind data and whether the predicate's index was pushed onto
`filters_to_remove`. -/
def pushdownStep (tsFromString : String → Int) (bd : GoogleSearchBindData) :
    PushFilter → GoogleSearchBindData × Bool
  | PushFilter.suffixFn col v =>
      match v with
      | ConstVal.varchar s =>
          if col = "site" then
            ({ bd with site_includes := bd.site_includes ++ [s] }, true)
          else (bd, false)
      | _ => (bd, false)
  | PushFilter.prefixFn col v =>
      match v with
      | ConstVal.varchar s =>
          if col = "site" then
            ({ bd with site_includes := bd.site_includes ++ [s] }, true)
          else (bd, false)
      | _ => (bd, false)
  | PushFilter.inOp col children =>
      if col = "site" then
        match collectVarchars children with
        | some vals =>
            if vals ≠ [] then
              ({ bd with site_includes := bd.site_includes ++ vals }, true)
            else (bd, false)
        | none => (bd, false)
      else (bd, false)
  | PushFilter.eqCmp col v =>
      match v with
      | ConstVal.varchar s =>
          if col = "site" then
            ({ bd with site_includes := bd.site_includes ++ [s] }, true)
          else (bd, false)
      | _ => (bd, false)
  | PushFilter.neqCmp col v =>
      match v with
      | ConstVal.varchar s =>
          if col = "site" then
            ({ bd with site_excludes := bd.site_excludes ++ [s] }, true)
          else (bd, false)
      | _ => (bd, false)
  | PushFilter.gtCmp col v =>
      if col = "timestamp" ∨ col = "date" then
        match convertToTimestamp tsFromString v with
        | some ts => ({ bd with date_from := ts, has_date_filter := true }, false)
        | none => (bd, false)
      else (bd, false)
  | PushFilter.geCmp col v =>
      if col = "timestamp" ∨ col = "date" then
        match convertToTimestamp tsFromString v with
        | some ts => ({ bd with date_from := ts, has_date_filter := true }, false)
        | none => (bd, false)
      else (bd, false)
  | PushFilter.ltCmp col v =>
      if col = "timestamp" ∨ col = "date" then
        match convertToTimestamp tsFromString v with
        | some ts => ({ bd with date_to := ts, has_date_filter := true }, false)
        | none => (bd, false)
      else (bd, false)
  | PushFilter.leCmp col v =>
      if col = "timestamp" ∨ col = "date" then
        match convertToTimestamp tsFromString v with
        | some ts => ({ bd with date_to := ts, has_date_filter := true }, false)
        | none => (bd, false)
      else (bd, false)
  | PushFilter.betweenCmp => (bd, false)
  | PushFilter.otherFilter => (bd, false)

/-- `GoogleSearchPushdownComplexFilter` (google_search_function.cpp:515-709):
process the predicates in order, then erase the absorbed ones (the C++
collects `filters_to_remove` and erases in reverse, which preserves the
relative order of the survivors — here the survivors are kept directly). -/
def pushdownComplexFilter (tsFromString : String → Int) :
    GoogleSearchBindData → List PushFilter → GoogleSearchBindData × List PushFilter
  | bd, [] => (bd, [])
  | bd, f :: rest =>
    let r := pushdownStep tsFromString bd f
    let next := pushdownComplexFilter tsFromString r.1 rest
    (next.1, if r.2 then next.2 else f :: next.2)

/-! ### Limit pushdown and bind — OptimizeGoogleSearchLimitPushdown -/

/-- `limit.limit_val.Type()` as seen by the limit optimizer
(google_search_function.cpp:776-783): a compile-time constant, unset, or any
other limit form (expression, percentage, ...). -/
inductive LimitNodeVal where
  | unset
  | constantValue (n : Nat)
  | otherLimit
deriving DecidableEq, Repr

/-- The bind-data update performed by `OptimizeGoogleSearchLimitPushdown`
once it has found a `google_search` get under the limit
(google_search_function.cpp:776-791): a constant limit narrows
`max_results` to `min(limit, 100)`; an unset limit is absorbed without
changing the 100 default; any other limit form leaves the bind data
untouched. -/
def optimizeLimitPushdown (bd : GoogleSearchBindData) (lim : LimitNodeVal) :
    GoogleSearchBindData :=
  match lim with
  | LimitNodeVal.constantValue n => { bd with max_results := min n 100 }
  | LimitNodeVal.unset => bd
  | LimitNodeVal.otherLimit => bd

/-- The named-parameter dispatch of `GoogleSearchBind`
(google_search_function.cpp:441-468). -/
def applyNamedParam (f : GoogleSearchFilters) (key : String) (value : String) :
    GoogleSearchFilters :=
  if key = "exact_terms" then { f with exact_terms := value }
  else if key = "exclude_terms" then { f with exclude_terms := value }
  else if key = "or_terms" then { f with or_terms := value }
  else if key = "file_type" then { f with file_type := value }
  else if key = "country" then { f with gl := value }
  else if key = "language" then { f with language := value }
  else if key = "interface_language" then { f with hl := value }
  else if key = "safe" then { f with safe := value }
  else if key = "rights" then { f with rights := value }
  else if key = "sort" then { f with sort := value }
  else if key = "structured_data" then { f with structured_data := value }
  else f

/-- Output schema of `google_search` (google_search_function.cpp:471-473). -/
def googleSearchColumnNames : List String :=
  ["title", "link", "snippet", "display_link", "formatted_url",
   "html_formatted_url", "html_title", "html_snippet", "mime",
   "file_format", "pagemap", "site", "date"]

/-- `GoogleSearchBind` (google_search_function.cpp:425-486): builds the bind
data from the query argument, the resolved credentials and the named
parameters; `max_results` keeps its 100 default. -/
def googleSearchBind (query api_key cx : String) (named : List (String × String)) :
    GoogleSearchBindData :=
  { query := query, api_key := api_key, cx := cx,
    column_names := googleSearchColumnNames,
    filters := named.foldl (fun f kv => applyNamedParam f kv.1.toLower kv.2) {} }

/-! ### Result records and pagination engine — FetchGoogleSearchResults -/

/-- First index at which `pat` occurs in a character list
(`std::string::find` of a string). -/
def findStrIdx (pat : List Char) : List Char → Option Nat
  | [] => if pat.isPrefixOf ([] : List Char) then some 0 else none
  | c :: t =>
    if pat.isPrefixOf (c :: t) then some 0
    else (findStrIdx pat t).map (fun i => i + 1)

/-- First index of character `c` (`std::string::find` of a char). -/
def findCharIdx (c : Char) : List Char → Option Nat
  | [] => none
  | b :: t => if b = c then some 0 else (findCharIdx c t).map (fun i => i + 1)

/-- `ExtractDomain` (google_search_function.cpp:95-107) on a character
list: start just after the first `://` (position 0 when absent), stop at the
first subsequent `/` (end of string when absent). -/
def extractDomainL (url : List Char) : List Char :=
  let startIdx : Nat :=
    match findStrIdx ("://".toList) url with
    | some i => i + 3
    | none => 0
  let endIdx : Nat :=
    match (findCharIdx '/' (url.drop startIdx)).map (fun i => i + startIdx) with
    | some e => e
    | none => url.length
  (url.drop startIdx).take (endIdx - startIdx)

/-- `ExtractDomain` (google_search_function.cpp:95-107). -/
def extractDomain (url : String) : String :=
  String.mk (extractDomainL url.toList)

/-- The string fields of one item of the API response, as extracted by
`GetJsonString` / `yyjson_val_write` (absent JSON fields read as `""`). -/
structure RawItem where
  title : String := ""
  link : String := ""
  snippet : String := ""
  display_link : String := ""
  formatted_url : String := ""
  html_formatted_url : String := ""
  html_title : String := ""
  html_snippet : String := ""
  mime : String := ""
  file_format : String := ""
  pagemap : String := ""
deriving DecidableEq, Repr

/-- `GoogleSearchResult` (google_search_function.cpp:30-44). -/
structure GoogleSearchResult where
  title : String := ""
  link : String := ""
  snippet : String := ""
  display_link : String := ""
  formatted_url : String := ""
  html_formatted_url : String := ""
  html_title : String := ""
  html_snippet : String := ""
  mime : String := ""
  file_format : String := ""
  pagemap : String := ""
  site : String := ""
  date : String := ""
deriving DecidableEq, Repr

/-- Construction of one `GoogleSearchResult` from a response item
(google_search_function.cpp:279-304): every field is copied, `site` is
derived from `link` by `ExtractDomain`, and `date` is never assigned. -/
def parseItem (item : RawItem) : GoogleSearchResult :=
  { title := item.title, link := item.link, snippet := item.snippet,
    display_link := item.display_link, formatted_url := item.formatted_url,
    html_formatted_url := item.html_formatted_url, html_title := item.html_title,
    html_snippet := item.html_snippet, mime := item.mime,
    file_format := item.file_format, pagemap := item.pagemap,
    site := extractDomain item.link, date := "" }

/-- One successfully parsed API response at the abstraction level the
pagination engine consumes: the `items` array and the optional
`queries.nextPage[0].startIndex` continuation token. -/
structure ApiPage where
  items : List RawItem := []
  nextStart : Option Int := none
deriving DecidableEq, Repr

/-- `ParseGoogleSearchResponse` (google_search_function.cpp:246-325) on an
already-parsed page: an empty `items` array returns `-1` immediately
(before reading any continuation token); otherwise the items are appended
up to `max_results` and the continuation token (or `-1` when absent) is
returned. -/
def parseGoogleSearchResponse (page : ApiPage) (max_results : Nat)
    (results : List GoogleSearchResult) : List GoogleSearchResult × Int :=
  if page.items.isEmpty then (results, -1)
  else
    let appended :=
      results ++ (page.items.take (max_results - results.length)).map parseItem
    let next : Int :=
      match page.nextStart with
      | some s => s
      | none => -1
    (appended, next)

/-- `SitePaginationState` (google_search_function.cpp:69-72). -/
structure SitePaginationState where
  next_start : Int := 1
  exhausted : Bool := false
deriving DecidableEq, Repr

/-- `GoogleSearchGlobalState` (google_search_function.cpp:75-92), without
its mutex (the scan is single-threaded, `MaxThreads() = 1`). -/
structure GoogleSearchGlobalState where
  results : List GoogleSearchResult := []
  current_idx : Nat := 0
  site_states : List SitePaginationState := []
  current_site_idx : Nat := 0
  next_start : Int := 1
  fetch_complete : Bool := false
deriving DecidableEq, Repr

/-- `site_states[i]` (all C++ accesses are in range; the default is
irrelevant there). -/
def siteAt (states : List SitePaginationState) (i : Nat) : SitePaginationState :=
  (states[i]?).getD ⟨1, false⟩

/-- Whether `site_states[i].exhausted`. -/
def exhaustedAt (states : List SitePaginationState) (i : Nat) : Bool :=
  (siteAt states i).exhausted

/-- The round-robin advance loop (google_search_function.cpp:355-359):
starting at `cur`, skip exhausted partitions, advancing at most `budget`
times modulo `n`. -/
def rotateToActive (states : List SitePaginationState) (n : Nat) :
    Nat → Nat → Nat
  | cur, 0 => cur
  | cur, budget + 1 =>
    if exhaustedAt states cur then rotateToActive states n ((cur + 1) % n) budget
    else cur

/-- The per-partition cursor update after one fetch
(google_search_function.cpp:384-388): the partition is marked exhausted when
the parsed continuation is negative or the start index just fetched had
already reached 100; otherwise the cursor advances to the continuation. -/
def updateSiteState (ss : SitePaginationState) (nextS : Int) : SitePaginationState :=
  if nextS < 0 ∨ 100 ≤ ss.next_start then ⟨ss.next_start, true⟩
  else ⟨nextS, ss.exhausted⟩

/-- One fetch issued by the engine: the partition index (`none` for the
combined single-query mode) and the request URL. -/
structure FetchCall where
  siteIdx : Option Nat
  url : String
deriving DecidableEq, Repr

/-- The per-partition round-robin loop of `FetchGoogleSearchResults`
(google_search_function.cpp:342-392), instrumented with the list of fetches
it performs.  `fuel` bounds the number of iterations of the C++ `while`
(which terminates because every iteration either appends an item or
exhausts a partition). -/
def perSiteLoop (bd : GoogleSearchBindData) (api : String → ApiPage)
    (now_time_t : Int) :
    Nat → GoogleSearchGlobalState → GoogleSearchGlobalState × List FetchCall
  | 0, st => (st, [])
  | fuel + 1, st =>
    if st.results.length < bd.max_results then
      let active := (st.site_states.filter (fun ss => ss.exhausted = false)).length
      if active = 0 then (st, [])
      else
        let cur := rotateToActive st.site_states bd.site_includes.length
          st.current_site_idx bd.site_includes.length
        if exhaustedAt st.site_states cur then
          ({ st with current_site_idx := cur }, [])
        else
          let ss := siteAt st.site_states cur
          let site := (bd.site_includes[cur]?).getD ""
          let url := buildGoogleSearchUrl bd ss.next_start site false now_time_t
          let page := api url
          let parsed := parseGoogleSearchResponse page bd.max_results st.results
          let st' : GoogleSearchGlobalState :=
            { st with results := parsed.1,
                      site_states := st.site_states.set cur (updateSiteState ss parsed.2),
                      current_site_idx := (cur + 1) % bd.site_includes.length }
          let rest := perSiteLoop bd api now_time_t fuel st'
          (rest.1, FetchCall.mk (some cur) url :: rest.2)
    else (st, [])

/-- The combined single-query loop of `FetchGoogleSearchResults`
(google_search_function.cpp:396-420), instrumented with the list of fetches
it performs. -/
def combinedLoop (bd : GoogleSearchBindData) (api : String → ApiPage)
    (now_time_t : Int) :
    Nat → GoogleSearchGlobalState → GoogleSearchGlobalState × List FetchCall
  | 0, st => (st, [])
  | fuel + 1, st =>
    if st.results.length < bd.max_results ∧ st.fetch_complete = false then
      let has_sites := !bd.site_includes.isEmpty
      let url := buildGoogleSearchUrl bd st.next_start "" has_sites now_time_t
      let page := api url
      let parsed := parseGoogleSearchResponse page bd.max_results st.results
      let st' : GoogleSearchGlobalState :=
        if parsed.2 < 0 ∨ 100 ≤ st.next_start then
          { st with results := parsed.1, fetch_complete := true }
        else
          { st with results := parsed.1, next_start := parsed.2 }
      let rest := combinedLoop bd api now_time_t fuel st'
      (rest.1, FetchCall.mk none url :: rest.2)
    else (st, [])

/-- The mode decision of `FetchGoogleSearchResults`
(google_search_function.cpp:335): per-partition round-robin queries are used
exactly when more than one site is included and `max_results` exceeds 100. -/
def usePerSiteQueries (bd : GoogleSearchBindData) : Bool :=
  decide (1 < bd.site_includes.length) && decide (100 < bd.max_results)

/-- `state.site_states.resize(n)` (google_search_function.cpp:340). -/
def resizeSiteStates (states : List SitePaginationState) (n : Nat) :
    List SitePaginationState :=
  states.take n ++ List.replicate (n - states.length) ⟨1, false⟩

/-- `FetchGoogleSearchResults` (google_search_function.cpp:328-422) on the
success path (a failed HTTP response or an API error payload raises and
aborts the scan). -/
def fetchGoogleSearchResults (bd : GoogleSearchBindData) (api : String → ApiPage)
    (now_time_t : Int) (fuel : Nat) (st : GoogleSearchGlobalState) :
    GoogleSearchGlobalState × List FetchCall :=
  if usePerSiteQueries bd then
    perSiteLoop bd api now_time_t fuel
      { st with site_states := resizeSiteStates st.site_states bd.site_includes.length }
  else
    combinedLoop bd api now_time_t fuel st

/-- The fresh state built by `GoogleSearchInitGlobal`
(google_search_function.cpp:712-721). -/
def initGlobalState : GoogleSearchGlobalState := {}

/-! ### Derived characterizations used by the theorems -/

/-- The derived `site` field as the specification describes it: the part of
the link after the first `://` (the whole link when `://` is absent), taken
up to the next `/` (to the end of the string when none follows). -/
def siteOfLinkSpec (link : String) : String :=
  let tailCs : List Char :=
    match findStrIdx ("://".toList) link.toList with
    | some i => link.toList.drop (i + 3)
    | none => link.toList
  String.mk (tailCs.takeWhile (fun b => b != '/'))

/-- Whether the absorber removes a predicate from the residual list; this
depends only on the predicate itself (bind data threading never changes
the decision). -/
def absorbRemoves : PushFilter → Bool
  | PushFilter.suffixFn col (ConstVal.varchar _) => col == "site"
  | PushFilter.prefixFn col (ConstVal.varchar _) => col == "site"
  | PushFilter.eqCmp col (ConstVal.varchar _) => col == "site"
  | PushFilter.neqCmp col (ConstVal.varchar _) => col == "site"
  | PushFilter.inOp col children =>
      col == "site" &&
        (match collectVarchars children with
         | some vals => !vals.isEmpty
         | none => false)
  | _ => false

/-! ### Concrete fixtures used by witness theorems -/

/-- A network oracle whose every attempt fails with a non-retryable 404. -/
def alwaysNotFound : Nat → HttpResponse := fun _ => { status_code := 404 }

/-- A network oracle whose every attempt fails with a retryable 429 and no
retry-after header. -/
def alwaysRateLimited : Nat → HttpResponse := fun _ => { status_code := 429 }

/-- A network oracle whose every attempt fails with a retryable 429 carrying
retry-after header `"5"`. -/
def alwaysRateLimitedWithHeader : Nat → HttpResponse :=
  fun _ => { status_code := 429, retry_after := "5" }

/-- A trivial stand-in for DuckDB's `Timestamp::FromString`. -/
def tsFromStringZero : String → Int := fun _ => 0

/-- A parsed-page oracle that always returns an empty page. -/
def emptyPageApi : String → ApiPage := fun _ => {}

/-- Bind data with two included sites and a 150 row cap (per-partition mode
territory). -/
def sampleTwoSiteBindData : GoogleSearchBindData :=
  { site_includes := ["a.com", "b.com"], max_results := 150 }

/-- Bind data with one included site and the default 100 row cap. -/
def sampleOneSiteBindData : GoogleSearchBindData :=
  { site_includes := ["a.com"] }

/-- A per-partition state whose first partition is exhausted. -/
def sampleExhaustedState : GoogleSearchGlobalState :=
  { site_states := [⟨1, true⟩, ⟨1, false⟩] }

/-! ### Helper lemmas: transport -/

/-- Unfolding of one loop iteration of `Fetch` on a retryable failure with
retries left. -/
lemma fetchAux_retry_step (config : RetryConfig) (responses : Nat → HttpResponse)
    (url : String) (fuel attempt : Nat)
    (hfail : (responses attempt).success = false)
    (hretry : isRetryable (responses attempt).status_code = true)
    (hleft : attempt < config.max_retries) :
    fetchAux config responses url (fuel + 1) attempt =
      ((fetchAux config responses url fuel (attempt + 1)).1,
        backoffWait config (responses attempt).status_code (responses attempt).retry_after
            attempt ::
          (fetchAux config responses url fuel (attempt + 1)).2) := by
  simp only [fetchAux, hfail, hretry, Bool.false_eq_true, if_false, if_true]
  rw [if_neg (by omega)]

/-- `Fetch` after exhausting all retryable attempts: the loop runs to
`attempt = max_retries` and returns the last response with the
"Max retries exceeded" message. -/
lemma fetchAux_exhausted (config : RetryConfig) (responses : Nat → HttpResponse)
    (url : String) :
    ∀ (fuel attempt : Nat), attempt + fuel = config.max_retries + 1 →
      attempt ≤ config.max_retries →
      (∀ a, attempt ≤ a → a ≤ config.max_retries →
        (responses a).success = false ∧ isRetryable (responses a).status_code = true) →
      (fetchAux config responses url fuel attempt).1 =
        { responses config.max_retries with
            error := "Max retries exceeded for URL: " ++ url } := by
  intro fuel
  induction fuel with
  | zero => intro attempt h1 h2 _; omega
  | succ fuel ih =>
    intro attempt h1 h2 hall
    obtain ⟨hfail, hretry⟩ := hall attempt (Nat.le_refl _) h2
    by_cases hlast : config.max_retries ≤ attempt
    · have : attempt = config.max_retries := Nat.le_antisymm h2 hlast
      subst this
      simp only [fetchAux, hfail, Bool.false_eq_true, if_false, hretry, if_true]
      rw [if_pos (Nat.le_refl _)]
    · rw [fetchAux_retry_step config responses url fuel attempt hfail hretry (by omega)]
      exact ih (attempt + 1) (by omega) (by omega)
        (fun a ha hb => hall a (by omega) hb)

/-- The wait recorded before the retry of attempt `attempt + a` equals the
computed backoff, provided the first `a + 1` attempts from `attempt` onwards
are retryable failures and a retry is still allowed. -/
lemma fetchAux_wait_at (config : RetryConfig) (responses : Nat → HttpResponse)
    (url : String) :
    ∀ (a fuel attempt : Nat), a < fuel → attempt + a < config.max_retries →
      (∀ j, j ≤ a → (responses (attempt + j)).success = false ∧
        isRetryable (responses (attempt + j)).status_code = true) →
      (fetchAux config responses url fuel attempt).2[a]? =
        some (backoffWait config (responses (attempt + a)).status_code
          (responses (attempt + a)).retry_after (attempt + a)) := by
  intro a
  induction a with
  | zero =>
    intro fuel attempt hfuel hleft hall
    obtain ⟨hfail, hretry⟩ := by
      have := hall 0 (Nat.le_refl _)
      simpa using this
    obtain ⟨fuel, rfl⟩ : ∃ f, fuel = f + 1 := ⟨fuel - 1, by omega⟩
    rw [fetchAux_retry_step config responses url fuel attempt hfail hretry (by omega)]
    simp
  | succ a ih =>
    intro fuel attempt hfuel hleft hall
    obtain ⟨hfail, hretry⟩ := by
      have := hall 0 (Nat.zero_le _)
      simpa using this
    obtain ⟨fuel, rfl⟩ : ∃ f, fuel = f + 1 := ⟨fuel - 1, by omega⟩
    rw [fetchAux_retry_step config responses url fuel attempt hfail hretry (by omega)]
    have := ih fuel (attempt + 1) (by omega) (by omega)
      (fun j hj => by
        have := hall (j + 1) (by omega)
        simpa [Nat.add_assoc, Nat.add_comm 1 j] using this)
    simpa [Nat.add_assoc, Nat.add_comm 1 a] using this

/-! ### C7 -/

/-- C7: `Fetch` retries exactly the statuses `≤ 0`, `429` and `500–504`
(first conjunct); a failing non-retryable first response is returned as-is
with no recorded backoff wait, i.e. after a single attempt (second
conjunct); a retryable first failure with retries available does schedule a
wait (third conjunct); and when every allowed attempt is a retryable
failure the final result is a failure whose error message contains the
requested URL (fourth conjunct). -/
theorem c7_retryable_statuses_and_exhaustion :
    (∀ s : Int, isRetryable s = true ↔ (s ≤ 0 ∨ s = 429 ∨ (500 ≤ s ∧ s ≤ 504))) ∧
    (∀ (config : RetryConfig) (responses : Nat → HttpResponse) (url : String),
      (responses 0).success = false → isRetryable (responses 0).status_code = false →
      fetch config responses url = (responses 0, [])) ∧
    (∀ (config : RetryConfig) (responses : Nat → HttpResponse) (url : String),
      (responses 0).success = false → isRetryable (responses 0).status_code = true →
      0 < config.max_retries → (fetch config responses url).2 ≠ []) ∧
    (∀ (config : RetryConfig) (responses : Nat → HttpResponse) (url : String),
      (∀ a, a ≤ config.max_retries →
        (responses a).success = false ∧ isRetryable (responses a).status_code = true) →
      (fetch config responses url).1.success = false ∧
      (fetch config responses url).1.error = "Max retries exceeded for URL: " ++ url ∧
      List.IsInfix url.toList (fetch config responses url).1.error.toList) := by
  refine ⟨?_, ?_, ?_, ?_⟩
  · intro s
    unfold isRetryable
    split_ifs with h1 h2 h3 <;> simp <;> omega
  · intro config responses url hfail hnot
    unfold fetch
    simp [fetchAux, hfail, hnot]
  · intro config responses url hfail hretry hpos
    unfold fetch
    rw [fetchAux_retry_step config responses url config.max_retries 0 hfail hretry hpos]
    simp
  · intro config responses url hall
    have hmain := fetchAux_exhausted config responses url (config.max_retries + 1) 0
      (by omega) (Nat.zero_le _) (fun a _ hb => hall a hb)
    unfold fetch
    rw [hmain]
    refine ⟨(hall config.max_retries (Nat.le_refl _)).1, rfl, ?_⟩
    exact ⟨("Max retries exceeded for URL: ").toList, [], by simp [String.toList, String.data_append]⟩

/-- Witness for C7 at concrete inputs: status 404 is not retryable and is
returned after one attempt with no waits; status 429 is retryable and
schedules a wait; an all-429 run exhausts retries into an error message
carrying the URL. -/
theorem c7_witness :
    (isRetryable 42 = true ↔ ((42 : Int) ≤ 0 ∨ (42 : Int) = 429 ∨
      (500 ≤ (42 : Int) ∧ (42 : Int) ≤ 504))) ∧
    fetch {} alwaysNotFound "http://u" = (alwaysNotFound 0, []) ∧
    (fetch {} alwaysRateLimited "http://u").2 ≠ [] ∧
    (fetch {} alwaysRateLimited "http://u").1.error =
      "Max retries exceeded for URL: " ++ "http://u" := by
  refine ⟨c7_retryable_statuses_and_exhaustion.1 42, ?_, ?_, ?_⟩
  · exact c7_retryable_statuses_and_exhaustion.2.1 {} alwaysNotFound "http://u"
      (by decide) (by decide)
  · exact c7_retryable_statuses_and_exhaustion.2.2.1 {} alwaysRateLimited "http://u"
      (by decide) (by decide) (by decide)
  · exact (c7_retryable_statuses_and_exhaustion.2.2.2 {} alwaysRateLimited "http://u"
      (fun a _ => ⟨rfl, rfl⟩)).2.1

/-! ### C6 -/

/-- C6 (amended): for a retryable failed attempt `a`, the wait before the
next attempt is `min(max_backoff_ms, W)`, where `W` is the retry-after
header parsed as seconds and converted to milliseconds when the status is
429 and the parsed value is positive, and
`W = initial_backoff_ms * multiplier^a` otherwise — i.e. when the header is
absent, unparseable, or parses to a non-positive number of milliseconds
(first two conjuncts); the wait recorded by the fetch loop before retrying
attempt `a` is exactly this value (third conjunct). -/
theorem c6_backoff_wait_amended :
    (∀ (config : RetryConfig) (ra : String) (attempt : Nat),
      0 < parseRetryAfter ra →
      backoffWait config 429 ra attempt = min config.max_backoff_ms (parseRetryAfter ra)) ∧
    (∀ (config : RetryConfig) (status : Int) (ra : String) (attempt : Nat),
      (status ≠ 429 ∨ parseRetryAfter ra ≤ 0) →
      backoffWait config status ra attempt =
        min config.max_backoff_ms
          (config.initial_backoff_ms * config.backoff_multiplier ^ attempt)) ∧
    (∀ (config : RetryConfig) (responses : Nat → HttpResponse) (url : String) (a : Nat),
      (∀ j, j ≤ a → (responses j).success = false ∧
        isRetryable (responses j).status_code = true) →
      a < config.max_retries →
      (fetch config responses url).2[a]? =
        some (backoffWait config (responses a).status_code (responses a).retry_after a)) := by
  refine ⟨?_, ?_, ?_⟩
  · intro config ra attempt hpos
    have hra : ra ≠ "" := by
      intro h
      rw [h] at hpos
      simp [parseRetryAfter] at hpos
    simp only [backoffWait]
    rw [if_pos ⟨trivial, hra⟩, if_neg (by omega), Int.min_comm]
  · intro config status ra attempt h
    simp only [backoffWait]
    rcases h with h | h
    · rw [if_neg (fun hc => h hc.1), Int.min_comm]
    · by_cases hc : status = 429 ∧ ra ≠ ""
      · rw [if_pos hc, if_pos h, Int.min_comm]
      · rw [if_neg hc, Int.min_comm]
  · intro config responses url a hall hleft
    unfold fetch
    have := fetchAux_wait_at config responses url a (config.max_retries + 1) 0
      (by omega) (by omega) (fun j hj => by simpa using hall j hj)
    simpa using this

/-- Counterexample to C6 as stated: with the default policy, a 429 response
whose retry-after header is present and parses to the integer 0 does not
produce the claimed wait `min(max_backoff_ms, 0) = 0`; the code falls back
to the exponential wait of 100 ms. -/
theorem c6_counterexample :
    backoffWait {} 429 "0" 0 ≠
      min ({} : RetryConfig).max_backoff_ms (parseRetryAfter "0") := by
  decide

/-- Witness for C6 at concrete inputs: a positive header `"5"` is honoured
(5000 ms), a 404 falls back to the exponential wait, and the first recorded
wait of an all-429 run with header `"5"` is the computed backoff. -/
theorem c6_witness :
    (0 < parseRetryAfter "5" ∧
      backoffWait {} 429 "5" 0 = min ({} : RetryConfig).max_backoff_ms (parseRetryAfter "5")) ∧
    backoffWait {} 404 "" 2 =
      min ({} : RetryConfig).max_backoff_ms
        (({} : RetryConfig).initial_backoff_ms * ({} : RetryConfig).backoff_multiplier ^ 2) ∧
    (fetch {} alwaysRateLimitedWithHeader "http://u").2[0]? =
      some (backoffWait {} (alwaysRateLimitedWithHeader 0).status_code
        (alwaysRateLimitedWithHeader 0).retry_after 0) := by
  refine ⟨⟨by decide, ?_⟩, ?_, ?_⟩
  · exact c6_backoff_wait_amended.1 {} "5" 0 (by decide)
  · exact c6_backoff_wait_amended.2.1 {} 404 "" 2 (Or.inl (by decide))
  · exact c6_backoff_wait_amended.2.2 {} alwaysRateLimitedWithHeader "http://u" 0
      (fun j _ => ⟨rfl, rfl⟩) (by decide)

/-! ### Helper lemmas: predicate absorber bookkeeping -/

/-- The filter-pushdown step never touches `max_results`. -/
lemma pushdownStep_max_results (ts : String → Int) (bd : GoogleSearchBindData)
    (f : PushFilter) : (pushdownStep ts bd f).1.max_results = bd.max_results := by
  cases f <;>
    simp only [pushdownStep] <;>
    repeat first
      | rfl
      | split

/-- `GoogleSearchPushdownComplexFilter` never touches `max_results`. -/
lemma pushdownComplexFilter_max_results (ts : String → Int) :
    ∀ (fs : List PushFilter) (bd : GoogleSearchBindData),
      (pushdownComplexFilter ts bd fs).1.max_results = bd.max_results := by
  intro fs
  induction fs with
  | nil => intro bd; rfl
  | cons f rest ih =>
    intro bd
    simp only [pushdownComplexFilter]
    rw [ih, pushdownStep_max_results]

/-! ### C2 -/

/-- C2: the effective row cap is never above 100: bind leaves the
`max_results = 100` member default untouched (first conjunct); a pushed
compile-time-constant limit `L` narrows it to `min(L, 100)` (second
conjunct); every limit form keeps an already-valid cap at most 100 (third
conjunct); and filter pushdown never modifies the cap (fourth conjunct). -/
theorem c2_row_cap_at_most_100 :
    (∀ (query api_key cx : String) (named : List (String × String)),
      (googleSearchBind query api_key cx named).max_results = 100) ∧
    (∀ (bd : GoogleSearchBindData) (L : Nat),
      (optimizeLimitPushdown bd (LimitNodeVal.constantValue L)).max_results = min L 100) ∧
    (∀ (bd : GoogleSearchBindData) (lim : LimitNodeVal),
      bd.max_results ≤ 100 → (optimizeLimitPushdown bd lim).max_results ≤ 100) ∧
    (∀ (ts : String → Int) (bd : GoogleSearchBindData) (fs : List PushFilter),
      (pushdownComplexFilter ts bd fs).1.max_results = bd.max_results) := by
  refine ⟨fun _ _ _ _ => rfl, fun _ _ => rfl, ?_, ?_⟩
  · intro bd lim h
    cases lim with
    | unset => exact h
    | constantValue n => exact Nat.min_le_right n 100
    | otherLimit => exact h
  · intro ts bd fs
    exact pushdownComplexFilter_max_results ts fs bd

/-- Witness for C2 at concrete inputs: the default bind data keeps cap 100,
a pushed limit of 250 narrows to 100, a pushed limit of 7 narrows to 7, and
an unset limit keeps a valid cap valid. -/
theorem c2_witness :
    (googleSearchBind "q" "k" "c" []).max_results = 100 ∧
    (optimizeLimitPushdown {} (LimitNodeVal.constantValue 250)).max_results = min 250 100 ∧
    (optimizeLimitPushdown {} (LimitNodeVal.constantValue 7)).max_results = min 7 100 ∧
    (({} : GoogleSearchBindData).max_results ≤ 100 ∧
      (optimizeLimitPushdown {} LimitNodeVal.unset).max_results ≤ 100) := by
  refine ⟨c2_row_cap_at_most_100.1 "q" "k" "c" [],
    c2_row_cap_at_most_100.2.1 {} 250,
    c2_row_cap_at_most_100.2.1 {} 7,
    by decide, c2_row_cap_at_most_100.2.2.1 {} LimitNodeVal.unset (by decide)⟩

/-! ### Helper lemmas: truncating division -/

/-- Truncating division of a non-positive by a non-negative is non-positive. -/
lemma tdiv_nonpos_of_nonpos_of_nonneg (a b : Int) (ha : a ≤ 0) (hb : 0 ≤ b) :
    Int.tdiv a b ≤ 0 := by
  have h1 : Int.tdiv (-a) b = -Int.tdiv a b := Int.neg_tdiv a b
  have h2 : Int.tdiv (-a) b = (-a) / b := Int.tdiv_eq_ediv (by omega) hb
  have h3 : 0 ≤ (-a) / b := Int.ediv_nonneg (by omega) hb
  omega

/-! ### C8 -/

/-- C8: with `d` the whole elapsed days from "now" down to the lower bound
(time_t seconds, truncating division exactly as the C++ casts compute it),
a bound in the future yields no token; `1 ≤ d ≤ 7` yields `d<d>`;
`8 ≤ d ≤ 31` yields `w<w>` with `w = ceil(d/7)` (characterized by
`7(w-1) < d ≤ 7w`); `32 ≤ d ≤ 365` yields `m<m>` with `m = ceil(d/30)`;
and `d ≥ 366` yields `y<y>` with `y = ceil(d/365)`. -/
theorem c8_date_restrict_token_ranges :
    ∀ (now_time_t from_ts to_ts d : Int),
      d = Int.tdiv (now_time_t - Int.tdiv from_ts 1000000) 86400 →
      (now_time_t < Int.tdiv from_ts 1000000 →
        timestampToDateRestrict now_time_t from_ts to_ts = "") ∧
      (1 ≤ d → d ≤ 7 →
        timestampToDateRestrict now_time_t from_ts to_ts = "d" ++ toString d) ∧
      (8 ≤ d → d ≤ 31 →
        ∃ w : Int, timestampToDateRestrict now_time_t from_ts to_ts = "w" ++ toString w ∧
          7 * (w - 1) < d ∧ d ≤ 7 * w) ∧
      (32 ≤ d → d ≤ 365 →
        ∃ m : Int, timestampToDateRestrict now_time_t from_ts to_ts = "m" ++ toString m ∧
          30 * (m - 1) < d ∧ d ≤ 30 * m) ∧
      (366 ≤ d →
        ∃ y : Int, timestampToDateRestrict now_time_t from_ts to_ts = "y" ++ toString y ∧
          365 * (y - 1) < d ∧ d ≤ 365 * y) := by
  intro now_time_t from_ts to_ts d hd
  simp only [timestampToDateRestrict, ← hd]
  refine ⟨?_, ?_, ?_, ?_, ?_⟩
  · intro hfut
    have hneg : now_time_t - Int.tdiv from_ts 1000000 ≤ 0 := by omega
    have : d ≤ 0 := hd ▸ tdiv_nonpos_of_nonpos_of_nonneg _ _ hneg (by omega)
    rw [if_pos this]
  · intro h1 h2
    rw [if_neg (by omega), if_pos h2]
  · intro h1 h2
    refine ⟨Int.tdiv (d + 6) 7, ?_, ?_, ?_⟩
    · rw [if_neg (by omega), if_neg (by omega), if_pos h2]
    · have he : Int.tdiv (d + 6) 7 = (d + 6) / 7 := Int.tdiv_eq_ediv (by omega) (by omega)
      omega
    · have he : Int.tdiv (d + 6) 7 = (d + 6) / 7 := Int.tdiv_eq_ediv (by omega) (by omega)
      omega
  · intro h1 h2
    refine ⟨Int.tdiv (d + 29) 30, ?_, ?_, ?_⟩
    · rw [if_neg (by omega), if_neg (by omega), if_neg (by omega), if_pos h2]
    · have he : Int.tdiv (d + 29) 30 = (d + 29) / 30 := Int.tdiv_eq_ediv (by omega) (by omega)
      omega
    · have he : Int.tdiv (d + 29) 30 = (d + 29) / 30 := Int.tdiv_eq_ediv (by omega) (by omega)
      omega
  · intro h1
    refine ⟨Int.tdiv (d + 364) 365, ?_, ?_, ?_⟩
    · rw [if_neg (by omega), if_neg (by omega), if_neg (by omega), if_neg (by omega)]
    · have he : Int.tdiv (d + 364) 365 = (d + 364) / 365 :=
        Int.tdiv_eq_ediv (by omega) (by omega)
      omega
    · have he : Int.tdiv (d + 364) 365 = (d + 364) / 365 :=
        Int.tdiv_eq_ediv (by omega) (by omega)
      omega

/-- Witness for C8 at concrete inputs: 10 elapsed days give token `w2`
(with `7 * 1 < 10 ≤ 7 * 2`), and a lower bound one day in the future gives
no token. -/
theorem c8_witness :
    (∃ w : Int, timestampToDateRestrict 864000 0 0 = "w" ++ toString w ∧
      7 * (w - 1) < 10 ∧ (10 : Int) ≤ 7 * w) ∧
    timestampToDateRestrict 0 86400000000 0 = "" := by
  constructor
  · exact (c8_date_restrict_token_ranges 864000 0 0 10 (by decide)).2.2.1
      (by decide) (by decide)
  · exact (c8_date_restrict_token_ranges 0 86400000000 0 (-1) (by decide)).1 (by decide)

/-! ### Helper lemmas: domain extraction -/

/-- When no `/` occurs, `takeWhile` keeps the whole list. -/
lemma takeWhile_of_findCharIdx_none (c : Char) :
    ∀ m : List Char, findCharIdx c m = none → m.takeWhile (fun b => b != c) = m := by
  intro m
  induction m with
  | nil => intro _; rfl
  | cons b t ih =>
    intro h
    simp only [findCharIdx] at h
    by_cases hb : b = c
    · rw [if_pos hb] at h; exact absurd h (by simp)
    · rw [if_neg hb] at h
      have ht : findCharIdx c t = none := by
        cases hx : findCharIdx c t <;> simp [hx] at h ⊢
      simp [List.takeWhile_cons, bne_iff_ne, hb, ih ht]

/-- Taking up to the first occurrence of `c` is `takeWhile (≠ c)`. -/
lemma take_findCharIdx (c : Char) :
    ∀ (m : List Char) (e : Nat), findCharIdx c m = some e →
      m.take e = m.takeWhile (fun b => b != c) := by
  intro m
  induction m with
  | nil => intro e h; exact absurd h (by simp [findCharIdx])
  | cons b t ih =>
    intro e h
    simp only [findCharIdx] at h
    by_cases hb : b = c
    · rw [if_pos hb] at h
      have : e = 0 := by simpa using h.symm
      subst this
      simp [List.takeWhile_cons, hb]
    · rw [if_neg hb] at h
      obtain ⟨e', he', rfl⟩ : ∃ e', findCharIdx c t = some e' ∧ e = e' + 1 := by
        cases hx : findCharIdx c t <;> simp [hx] at h ⊢
        omega
      simp [List.takeWhile_cons, bne_iff_ne, hb, List.take_succ_cons, ih e' he']

/-- The index-based suffix extraction of `ExtractDomain` agrees with the
`takeWhile` description, for any start offset. -/
lemma drop_take_upto_slash (url : List Char) (s : Nat) :
    (url.drop s).take
        ((match (findCharIdx '/' (url.drop s)).map (fun i => i + s) with
          | some e => e
          | none => url.length) - s) =
      (url.drop s).takeWhile (fun b => b != '/') := by
  cases h : findCharIdx '/' (url.drop s) with
  | none =>
    simp only [h, Option.map_none']
    rw [List.take_of_length_le (by simp), takeWhile_of_findCharIdx_none '/' _ h]
  | some e =>
    simp only [h, Option.map_some']
    rw [Nat.add_sub_cancel, take_findCharIdx '/' _ e h]

/-- `ExtractDomain` computes exactly the specified substring of the link. -/
lemma extractDomain_eq_siteOfLinkSpec (link : String) :
    extractDomain link = siteOfLinkSpec link := by
  unfold extractDomain siteOfLinkSpec extractDomainL
  cases h : findStrIdx ("://".toList) link.toList with
  | some i =>
    simp only [h]
    exact congrArg String.mk (drop_take_upto_slash link.toList (i + 3))
  | none =>
    simp only [h]
    refine congrArg String.mk ?_
    have := drop_take_upto_slash link.toList 0
    simpa using this

/-! ### C10 -/

/-- C10: for every fetched record the derived `site` field is the substring
of `link` starting just after the first `://` (position 0 when absent) and
ending before the next `/` (end of string when absent); concrete instances
show that userinfo and port survive, that a schemeless link starts at
position 0, and that an empty link gives an empty site. -/
theorem c10_site_from_link :
    (∀ item : RawItem, (parseItem item).site = siteOfLinkSpec item.link) ∧
    (∀ link : String, extractDomain link = siteOfLinkSpec link) ∧
    extractDomain "" = "" ∧
    extractDomain "https://user:pw@host:8080/path" = "user:pw@host:8080" ∧
    extractDomain "noscheme/path" = "noscheme" := by
  refine ⟨?_, extractDomain_eq_siteOfLinkSpec, by decide, by decide, by decide⟩
  intro item
  exact extractDomain_eq_siteOfLinkSpec item.link

/-! ### C3 -/

/-- C3: evaluation of the absorber at the suffix predicate
`site LIKE '%.example.com'` (which reaches the pushdown hook as
`suffix(site, ".example.com")`): the predicate is removed from the residual
list as claimed, but the included-site pattern stored is the suffix constant
verbatim — `".example.com"`, not the bare domain `"example.com"` announced
by the claim and by the code's own comment; even the (never-called)
`ExtractLikePattern` helper would only strip `%`, leaving `".example.com"`. -/
theorem c3_suffix_absorption_keeps_leading_dot :
    pushdownComplexFilter tsFromStringZero {}
        [PushFilter.suffixFn "site" (ConstVal.varchar ".example.com")] =
      (({ site_includes := [".example.com"] } : GoogleSearchBindData),
        ([] : List PushFilter)) ∧
    (extractLikePattern "%.example.com").value = ".example.com" ∧
    ".example.com" ≠ "example.com" := by
  refine ⟨by decide, by decide, by decide⟩

/-! ### C4 -/

/-- C4 (amended): `BuildGoogleSearchUrl` is deterministic in the request,
start index, partition override, combine-sites flag and the clock reading it
performs; for a request without a date lower bound the URL is independent of
the clock, so two builds always agree — but a request with a date lower
bound reads the current time, and two builds at different clock readings
may differ (see the counterexample). -/
theorem c4_url_deterministic_without_date_bound :
    ∀ (bd : GoogleSearchBindData) (start : Int) (site_filter : String)
      (use_or_sites : Bool) (now1 now2 : Int),
      (bd.has_date_filter = false ∨ bd.date_from = 0) →
      buildGoogleSearchUrl bd start site_filter use_or_sites now1 =
        buildGoogleSearchUrl bd start site_filter use_or_sites now2 := by
  intro bd start site_filter use_or_sites now1 now2 h
  have hc : ¬(bd.has_date_filter = true ∧ bd.date_from ≠ 0) := by
    rcases h with h | h <;> simp [h]
  unfold buildGoogleSearchUrl dateRestrictParam
  rw [if_neg hc, if_neg hc]

/-- Counterexample to C4 as stated: the one fixed request below carries a
date lower bound; built at clock second 86401 the URL carries
`dateRestrict=d1`, while at clock second 172801 it carries
`dateRestrict=d2`, so the two builds differ. -/
theorem c4_counterexample :
    buildGoogleSearchUrl
        ({ has_date_filter := true, date_from := 1000000 } : GoogleSearchBindData)
        1 "" false 86401 ≠
      buildGoogleSearchUrl
        ({ has_date_filter := true, date_from := 1000000 } : GoogleSearchBindData)
        1 "" false 172801 := by
  decide

/-- Witness for C4 at concrete inputs: a request without a date bound builds
the same URL at two different clock readings. -/
theorem c4_witness :
    ({} : GoogleSearchBindData).has_date_filter = false ∧
    buildGoogleSearchUrl {} 1 "" false 0 = buildGoogleSearchUrl {} 1 "" false 999999 := by
  exact ⟨rfl, c4_url_deterministic_without_date_bound {} 1 "" false 0 999999 (Or.inl rfl)⟩

/-! ### Helper lemmas: residual predicate list -/

/-- The removal decision of one absorber step depends only on the
predicate. -/
lemma pushdownStep_removed (ts : String → Int) (bd : GoogleSearchBindData)
    (f : PushFilter) : (pushdownStep ts bd f).2 = absorbRemoves f := by
  cases f <;>
    simp only [pushdownStep, absorbRemoves] <;>
    repeat first
      | rfl
      | (split <;> try simp_all)

/-- The residual list is the input list filtered by the removal decision. -/
lemma pushdownComplexFilter_residual (ts : String → Int) :
    ∀ (fs : List PushFilter) (bd : GoogleSearchBindData),
      (pushdownComplexFilter ts bd fs).2 =
        fs.filter (fun f => !absorbRemoves f) := by
  intro fs
  induction fs with
  | nil => intro bd; rfl
  | cons f rest ih =>
    intro bd
    simp only [pushdownComplexFilter, pushdownStep_removed, ih, List.filter_cons]
    cases h : absorbRemoves f <;> simp [h]

/-! ### C5 -/

/-- C5: the residual predicate list is always an order-preserving sublist of
the input (first conjunct); every `>`/`>=`/`<`/`<=` comparison on a column
named `timestamp` or `date` that appears in the input survives into the
residual list (second conjunct); recognized site predicates — suffix,
prefix, equality and inequality on `site` with a VARCHAR constant — are
removed (third conjunct); and a date comparison with a convertible constant
is absorbed into `date_from`/`date_to` with `has_date_filter` set while its
removal flag stays false (fourth conjunct). -/
theorem c5_date_predicates_retained_site_removed :
    (∀ (ts : String → Int) (bd : GoogleSearchBindData) (fs : List PushFilter),
      List.Sublist ((pushdownComplexFilter ts bd fs).2) fs) ∧
    (∀ (ts : String → Int) (bd : GoogleSearchBindData) (fs : List PushFilter)
      (f : PushFilter) (col : String) (v : ConstVal),
      (f = PushFilter.gtCmp col v ∨ f = PushFilter.geCmp col v ∨
        f = PushFilter.ltCmp col v ∨ f = PushFilter.leCmp col v) →
      f ∈ fs → f ∈ (pushdownComplexFilter ts bd fs).2) ∧
    (∀ (ts : String → Int) (bd : GoogleSearchBindData) (fs : List PushFilter)
      (f : PushFilter) (s : String),
      (f = PushFilter.suffixFn "site" (ConstVal.varchar s) ∨
        f = PushFilter.prefixFn "site" (ConstVal.varchar s) ∨
        f = PushFilter.eqCmp "site" (ConstVal.varchar s) ∨
        f = PushFilter.neqCmp "site" (ConstVal.varchar s)) →
      f ∉ (pushdownComplexFilter ts bd fs).2) ∧
    (∀ (ts : String → Int) (bd : GoogleSearchBindData) (col : String)
      (v : ConstVal) (t : Int),
      (col = "timestamp" ∨ col = "date") → convertToTimestamp ts v = some t →
      ((pushdownStep ts bd (PushFilter.gtCmp col v)).1.date_from = t ∧
        (pushdownStep ts bd (PushFilter.gtCmp col v)).1.has_date_filter = true ∧
        (pushdownStep ts bd (PushFilter.gtCmp col v)).2 = false) ∧
      ((pushdownStep ts bd (PushFilter.geCmp col v)).1.date_from = t ∧
        (pushdownStep ts bd (PushFilter.geCmp col v)).1.has_date_filter = true ∧
        (pushdownStep ts bd (PushFilter.geCmp col v)).2 = false) ∧
      ((pushdownStep ts bd (PushFilter.ltCmp col v)).1.date_to = t ∧
        (pushdownStep ts bd (PushFilter.ltCmp col v)).1.has_date_filter = true ∧
        (pushdownStep ts bd (PushFilter.ltCmp col v)).2 = false) ∧
      ((pushdownStep ts bd (PushFilter.leCmp col v)).1.date_to = t ∧
        (pushdownStep ts bd (PushFilter.leCmp col v)).1.has_date_filter = true ∧
        (pushdownStep ts bd (PushFilter.leCmp col v)).2 = false)) := by
  refine ⟨?_, ?_, ?_, ?_⟩
  · intro ts bd fs
    rw [pushdownComplexFilter_residual]
    exact List.filter_sublist fs
  · intro ts bd fs f col v hf hmem
    rw [pushdownComplexFilter_residual]
    refine List.mem_filter.2 ⟨hmem, ?_⟩
    rcases hf with rfl | rfl | rfl | rfl <;> rfl
  · intro ts bd fs f s hf
    rw [pushdownComplexFilter_residual]
    intro hmem
    have := (List.mem_filter.1 hmem).2
    rcases hf with rfl | rfl | rfl | rfl <;> simp [absorbRemoves] at this
  · intro ts bd col v t hcol hconv
    have hif : (col = "timestamp" ∨ col = "date") := hcol
    refine ⟨?_, ?_, ?_, ?_⟩ <;>
      simp only [pushdownStep, if_pos hif, hconv] <;> refine ⟨?_, ?_, ?_⟩ <;> trivial

/-- Witness for C5 at concrete inputs: in a list holding a date lower-bound
comparison and a site suffix predicate, the date comparison survives into
the residual list, the site predicate is removed, the residual list is a
sublist of the input, and the date bound is recorded. -/
theorem c5_witness :
    PushFilter.gtCmp "date" (ConstVal.dateV 1) ∈
      (pushdownComplexFilter tsFromStringZero {}
        [PushFilter.gtCmp "date" (ConstVal.dateV 1),
         PushFilter.suffixFn "site" (ConstVal.varchar ".a.com")]).2 ∧
    PushFilter.suffixFn "site" (ConstVal.varchar ".a.com") ∉
      (pushdownComplexFilter tsFromStringZero {}
        [PushFilter.gtCmp "date" (ConstVal.dateV 1),
         PushFilter.suffixFn "site" (ConstVal.varchar ".a.com")]).2 ∧
    List.Sublist
      ((pushdownComplexFilter tsFromStringZero {}
        [PushFilter.gtCmp "date" (ConstVal.dateV 1),
         PushFilter.suffixFn "site" (ConstVal.varchar ".a.com")]).2)
      [PushFilter.gtCmp "date" (ConstVal.dateV 1),
       PushFilter.suffixFn "site" (ConstVal.varchar ".a.com")] ∧
    (pushdownStep tsFromStringZero {}
      (PushFilter.gtCmp "date" (ConstVal.dateV 1))).1.date_from = 86400000000 := by
  refine ⟨?_, ?_, ?_, ?_⟩
  · exact c5_date_predicates_retained_site_removed.2.1 tsFromStringZero {} _ _
      "date" (ConstVal.dateV 1) (Or.inl rfl) (by decide)
  · exact c5_date_predicates_retained_site_removed.2.2.1 tsFromStringZero {} _ _
      ".a.com" (Or.inl rfl)
  · exact c5_date_predicates_retained_site_removed.1 tsFromStringZero {} _
  · exact ((c5_date_predicates_retained_site_removed.2.2.2 tsFromStringZero {}
      "date" (ConstVal.dateV 1) 86400000000 (Or.inr rfl) rfl).1).1

/-! ### Helper lemmas: pagination loops -/

/-- Writing one partition's cursor leaves every other partition's exhausted
flag unchanged. -/
lemma exhaustedAt_set_ne (states : List SitePaginationState) (cur i : Nat)
    (ss : SitePaginationState) (hne : cur ≠ i) :
    exhaustedAt (states.set cur ss) i = exhaustedAt states i := by
  unfold exhaustedAt siteAt
  rw [List.getElem?_set_ne hne]

/-- Every fetch recorded by the per-partition loop carries a partition
index. -/
lemma perSiteLoop_trace_isSome (bd : GoogleSearchBindData) (api : String → ApiPage)
    (now_time_t : Int) :
    ∀ (fuel : Nat) (st : GoogleSearchGlobalState),
      ∀ c ∈ (perSiteLoop bd api now_time_t fuel st).2, c.siteIdx.isSome = true := by
  intro fuel
  induction fuel with
  | zero => intro st c hc; simp [perSiteLoop] at hc
  | succ fuel ih =>
    intro st c hc
    simp only [perSiteLoop] at hc
    split_ifs at hc with h1 h2 h3
    · simp at hc
    · simp at hc
    · rcases List.mem_cons.1 hc with rfl | hc
      · rfl
      · exact ih _ c hc
    · simp at hc

/-- Every fetch recorded by the combined loop carries no partition index. -/
lemma combinedLoop_trace_none (bd : GoogleSearchBindData) (api : String → ApiPage)
    (now_time_t : Int) :
    ∀ (fuel : Nat) (st : GoogleSearchGlobalState),
      ∀ c ∈ (combinedLoop bd api now_time_t fuel st).2, c.siteIdx = none := by
  intro fuel
  induction fuel with
  | zero => intro st c hc; simp [combinedLoop] at hc
  | succ fuel ih =>
    intro st c hc
    simp only [combinedLoop] at hc
    split_ifs at hc with h1 h2
    · rcases List.mem_cons.1 hc with rfl | hc
      · rfl
      · exact ih _ c hc
    · rcases List.mem_cons.1 hc with rfl | hc
      · rfl
      · exact ih _ c hc
    · simp at hc

/-- A completed combined cursor is final: the loop performs no further fetch
and leaves the state untouched. -/
lemma combinedLoop_complete (bd : GoogleSearchBindData) (api : String → ApiPage)
    (now_time_t : Int) (fuel : Nat) (st : GoogleSearchGlobalState)
    (h : st.fetch_complete = true) :
    combinedLoop bd api now_time_t fuel st = (st, []) := by
  cases fuel with
  | zero => rfl
  | succ fuel => simp [combinedLoop, h]

/-- Exhausted partitions stay exhausted and are never fetched again by the
per-partition loop. -/
lemma perSiteLoop_exhausted_final (bd : GoogleSearchBindData) (api : String → ApiPage)
    (now_time_t : Int) :
    ∀ (fuel : Nat) (st : GoogleSearchGlobalState) (i : Nat),
      exhaustedAt st.site_states i = true →
      exhaustedAt (perSiteLoop bd api now_time_t fuel st).1.site_states i = true ∧
      ∀ c ∈ (perSiteLoop bd api now_time_t fuel st).2, c.siteIdx ≠ some i := by
  intro fuel
  induction fuel with
  | zero =>
    intro st i h
    exact ⟨h, by simp [perSiteLoop]⟩
  | succ fuel ih =>
    intro st i h
    simp only [perSiteLoop]
    split_ifs with h1 h2 h3
    · exact ⟨h, by simp⟩
    · exact ⟨h, by simp⟩
    · -- the fetch step: the fetched partition is not exhausted, so it is not i
      have hne : rotateToActive st.site_states bd.site_includes.length
          st.current_site_idx bd.site_includes.length ≠ i := by
        intro heq
        rw [heq] at h3
        exact h3 h
      have hstep := ih
        { st with
            results := (parseGoogleSearchResponse
              (api (buildGoogleSearchUrl bd
                (siteAt st.site_states (rotateToActive st.site_states
                  bd.site_includes.length st.current_site_idx
                  bd.site_includes.length)).next_start
                ((bd.site_includes[rotateToActive st.site_states
                  bd.site_includes.length st.current_site_idx
                  bd.site_includes.length]?).getD "") false now_time_t))
              bd.max_results st.results).1,
            site_states := st.site_states.set
              (rotateToActive st.site_states bd.site_includes.length
                st.current_site_idx bd.site_includes.length)
              (updateSiteState
                (siteAt st.site_states (rotateToActive st.site_states
                  bd.site_includes.length st.current_site_idx
                  bd.site_includes.length))
                (parseGoogleSearchResponse
                  (api (buildGoogleSearchUrl bd
                    (siteAt st.site_states (rotateToActive st.site_states
                      bd.site_includes.length st.current_site_idx
                      bd.site_includes.length)).next_start
                    ((bd.site_includes[rotateToActive st.site_states
                      bd.site_includes.length st.current_site_idx
                      bd.site_includes.length]?).getD "") false now_time_t))
                  bd.max_results st.results).2),
            current_site_idx := (rotateToActive st.site_states
              bd.site_includes.length st.current_site_idx
              bd.site_includes.length + 1) % bd.site_includes.length }
        i (by
          show exhaustedAt (st.site_states.set _ _) i = true
          rw [exhaustedAt_set_ne _ _ _ _ hne]
          exact h)
      refine ⟨hstep.1, ?_⟩
      intro c hc
      rcases List.mem_cons.1 hc with rfl | hc
      · simpa using hne
      · exact hstep.2 c hc
    · exact ⟨h, by simp⟩

/-! ### C1 -/

/-- C1: the per-partition round-robin mode is selected exactly when the
included-site count exceeds 1 and the row cap exceeds 100 (first conjunct);
in that case the scan runs the per-partition loop on freshly resized
per-site cursors and every fetch it issues is a partition fetch (second
conjunct); in every other case the scan runs the combined single-query loop
and every fetch it issues is a combined fetch (third conjunct). -/
theorem c1_fetch_mode_selection :
    ∀ (bd : GoogleSearchBindData) (api : String → ApiPage) (now_time_t : Int)
      (fuel : Nat) (st : GoogleSearchGlobalState),
      (usePerSiteQueries bd = true ↔
        (1 < bd.site_includes.length ∧ 100 < bd.max_results)) ∧
      ((1 < bd.site_includes.length ∧ 100 < bd.max_results) →
        fetchGoogleSearchResults bd api now_time_t fuel st =
          perSiteLoop bd api now_time_t fuel
            { st with site_states :=
                resizeSiteStates st.site_states bd.site_includes.length } ∧
        ∀ c ∈ (fetchGoogleSearchResults bd api now_time_t fuel st).2,
          c.siteIdx.isSome = true) ∧
      (¬(1 < bd.site_includes.length ∧ 100 < bd.max_results) →
        fetchGoogleSearchResults bd api now_time_t fuel st =
          combinedLoop bd api now_time_t fuel st ∧
        ∀ c ∈ (fetchGoogleSearchResults bd api now_time_t fuel st).2,
          c.siteIdx = none) := by
  intro bd api now_time_t fuel st
  have hiff : usePerSiteQueries bd = true ↔
      (1 < bd.site_includes.length ∧ 100 < bd.max_results) := by
    simp [usePerSiteQueries]
  refine ⟨hiff, ?_, ?_⟩
  · intro h
    have hb : usePerSiteQueries bd = true := hiff.2 h
    have heq : fetchGoogleSearchResults bd api now_time_t fuel st =
        perSiteLoop bd api now_time_t fuel
          { st with site_states :=
              resizeSiteStates st.site_states bd.site_includes.length } := by
      unfold fetchGoogleSearchResults
      rw [if_pos hb]
    refine ⟨heq, ?_⟩
    intro c hc
    rw [heq] at hc
    exact perSiteLoop_trace_isSome bd api now_time_t fuel _ c hc
  · intro h
    have hb : ¬(usePerSiteQueries bd = true) := fun hx => h (hiff.1 hx)
    have heq : fetchGoogleSearchResults bd api now_time_t fuel st =
        combinedLoop bd api now_time_t fuel st := by
      unfold fetchGoogleSearchResults
      rw [if_neg hb]
    refine ⟨heq, ?_⟩
    intro c hc
    rw [heq] at hc
    exact combinedLoop_trace_none bd api now_time_t fuel st c hc

/-- Witness for C1 at concrete inputs: two sites with cap 150 select the
per-partition loop; one site with the default cap 100 selects the combined
loop. -/
theorem c1_witness :
    ((1 < sampleTwoSiteBindData.site_includes.length ∧
        100 < sampleTwoSiteBindData.max_results) ∧
      fetchGoogleSearchResults sampleTwoSiteBindData emptyPageApi 0 4 initGlobalState =
        perSiteLoop sampleTwoSiteBindData emptyPageApi 0 4
          { initGlobalState with site_states :=
              (resizeSiteStates initGlobalState.site_states
                sampleTwoSiteBindData.site_includes.length) }) ∧
    (¬(1 < sampleOneSiteBindData.site_includes.length ∧
        100 < sampleOneSiteBindData.max_results) ∧
      fetchGoogleSearchResults sampleOneSiteBindData emptyPageApi 0 4 initGlobalState =
        combinedLoop sampleOneSiteBindData emptyPageApi 0 4 initGlobalState) := by
  refine ⟨⟨by decide, ?_⟩, by decide, ?_⟩
  · exact ((c1_fetch_mode_selection sampleTwoSiteBindData emptyPageApi 0 4
      initGlobalState).2.1 (by decide)).1
  · exact ((c1_fetch_mode_selection sampleOneSiteBindData emptyPageApi 0 4
      initGlobalState).2.2 (by decide)).1

/-! ### C9 -/

/-- C9: an exhausted per-partition cursor stays exhausted and is never
fetched again (first conjunct); a completed combined cursor is final — no
further fetch, state untouched (second conjunct); a cursor whose start index
has reached 100 is marked exhausted after its fetch even when a continuation
token was returned (third conjunct); a negative parsed continuation marks
the cursor exhausted (fourth conjunct); a response with zero items yields
the no-continuation signal `-1` (fifth conjunct); and a combined cursor
whose start index has reached 100 is marked complete by the next loop step
(sixth conjunct). -/
theorem c9_exhaustion_is_final :
    (∀ (bd : GoogleSearchBindData) (api : String → ApiPage) (now_time_t : Int)
      (fuel : Nat) (st : GoogleSearchGlobalState) (i : Nat),
      exhaustedAt st.site_states i = true →
      exhaustedAt (perSiteLoop bd api now_time_t fuel st).1.site_states i = true ∧
      ∀ c ∈ (perSiteLoop bd api now_time_t fuel st).2, c.siteIdx ≠ some i) ∧
    (∀ (bd : GoogleSearchBindData) (api : String → ApiPage) (now_time_t : Int)
      (fuel : Nat) (st : GoogleSearchGlobalState),
      st.fetch_complete = true →
      combinedLoop bd api now_time_t fuel st = (st, [])) ∧
    (∀ (ss : SitePaginationState) (nextS : Int),
      100 ≤ ss.next_start → (updateSiteState ss nextS).exhausted = true) ∧
    (∀ (ss : SitePaginationState) (nextS : Int),
      nextS < 0 → (updateSiteState ss nextS).exhausted = true) ∧
    (∀ (page : ApiPage) (cap : Nat) (res : List GoogleSearchResult),
      page.items = [] → (parseGoogleSearchResponse page cap res).2 = -1) ∧
    (∀ (bd : GoogleSearchBindData) (api : String → ApiPage) (now_time_t : Int)
      (fuel : Nat) (st : GoogleSearchGlobalState),
      st.fetch_complete = false → st.results.length < bd.max_results →
      100 ≤ st.next_start →
      (combinedLoop bd api now_time_t (fuel + 1) st).1.fetch_complete = true) := by
  refine ⟨perSiteLoop_exhausted_final, combinedLoop_complete, ?_, ?_, ?_, ?_⟩
  · intro ss nextS h
    simp [updateSiteState, h]
  · intro ss nextS h
    simp [updateSiteState, h]
  · intro page cap res h
    simp [parseGoogleSearchResponse, h]
  · intro bd api now_time_t fuel st h1 h2 h3
    simp only [combinedLoop]
    rw [if_pos ⟨h2, h1⟩, if_pos (Or.inr h3)]
    rw [combinedLoop_complete bd api now_time_t fuel _ rfl]

/-- Witness for C9 at concrete inputs: with partition 0 exhausted it is
never fetched again and stays exhausted; a completed combined cursor is
returned untouched; a start index of 100 exhausts despite continuation 5;
continuation `-1` exhausts; an empty page signals `-1`; and a combined
cursor at start 100 completes on the next step. -/
theorem c9_witness :
    (exhaustedAt sampleExhaustedState.site_states 0 = true ∧
      exhaustedAt (perSiteLoop sampleTwoSiteBindData emptyPageApi 0 3
        sampleExhaustedState).1.site_states 0 = true ∧
      ∀ c ∈ (perSiteLoop sampleTwoSiteBindData emptyPageApi 0 3
        sampleExhaustedState).2, c.siteIdx ≠ some 0) ∧
    combinedLoop sampleOneSiteBindData emptyPageApi 0 3
        ({ fetch_complete := true } : GoogleSearchGlobalState) =
      (({ fetch_complete := true } : GoogleSearchGlobalState), []) ∧
    (updateSiteState ⟨100, false⟩ 5).exhausted = true ∧
    (updateSiteState ⟨1, false⟩ (-1)).exhausted = true ∧
    (parseGoogleSearchResponse {} 100 []).2 = -1 ∧
    (combinedLoop sampleOneSiteBindData emptyPageApi 0 3
      ({ next_start := 100 } : GoogleSearchGlobalState)).1.fetch_complete = true := by
  have h1 := c9_exhaustion_is_final.1 sampleTwoSiteBindData emptyPageApi 0 3
    sampleExhaustedState 0 (by decide)
  refine ⟨⟨by decide, h1.1, h1.2⟩, ?_, ?_, ?_, ?_, ?_⟩
  · exact c9_exhaustion_is_final.2.1 sampleOneSiteBindData emptyPageApi 0 3 _ rfl
  · exact c9_exhaustion_is_final.2.2.1 ⟨100, false⟩ 5 (by decide)
  · exact c9_exhaustion_is_final.2.2.2.1 ⟨1, false⟩ (-1) (by decide)
  · exact c9_exhaustion_is_final.2.2.2.2.1 {} 100 [] rfl
  · exact c9_exhaustion_is_final.2.2.2.2.2 sampleOneSiteBindData emptyPageApi 0 2
      ({ next_start := 100 } : GoogleSearchGlobalState) rfl (by decide) (by decide)

end WebSearch
